import Mathlib

/-!
Verification of the HumanLipidQuantifier pipeline.

This file gives a shallow embedding of the three scripts that carry the
core behaviour of the repository:

- ConvertSdfToJson.py   (record-oriented chemical-structure extraction)
- ConvertXmlToJson.py   (hierarchical markup extraction)
- HumanLipidQuantifier.py (set reconciliation and circle layout)

JSON values that matter here are strings or null, so a record is an
association list from field names to `Option String` (`some s` a string,
`none` an explicit JSON null).  A dict with a missing key and a dict whose
key holds null are distinguished: `List.lookup` returns `none` for a
missing key and `some none` for an explicit null.
-/

/-- A JSON object as produced by the converters and consumed by the
quantifier: field name to string-or-null, in insertion order. -/
def Entry : Type := List (String × Option String)

/-- Embedding of the Python expression `entry.get(key)` on a JSON object:
`None` both when the key is missing and when the stored value is null. -/
def Entry.get (e : Entry) (k : String) : Option String :=
  (List.lookup k e).join

/-- Embedding of `extract_values` from HumanLipidQuantifier.py:
`set(entry.get(key) for entry in data if entry.get(key) is not None)`.
The Python set holds the surviving values of `entry.get(key)`, so the
element type is `Option String` exactly as in the source, with the
`is not None` guard embedded as the `Option.isSome` filter. -/
def extract_values (data : List Entry) (key : String) : Finset (Option String) :=
  ((data.map fun e => Entry.get e key).filter Option.isSome).toFinset

/-- Embedding of the Python `set.intersection` call used in
`count_matching_inchikeys` (`lipid_inchikeys.intersection(metabolite_inchikeys)`). -/
def intersectKeys (a b : Finset (Option String)) : Finset (Option String) :=
  a ∩ b

/-- Embedding of `count_matching_inchikeys` from HumanLipidQuantifier.py
(the `save_txt` branch only writes files and is omitted): the triple of
common InChiKeys, common SMILES and common formulas. -/
def count_matching_inchikeys (lipids_data metabolites_data : List Entry) :
    Finset (Option String) × Finset (Option String) × Finset (Option String) :=
  (intersectKeys (extract_values lipids_data "INCHI_KEY")
      (extract_values metabolites_data "inchikey"),
   intersectKeys (extract_values lipids_data "SMILES")
      (extract_values metabolites_data "smiles"),
   intersectKeys (extract_values lipids_data "FORMULA")
      (extract_values metabolites_data "chemical_formula"))

/-- Size of the metabolite key set, `len(extract_values(metabolites_data, "inchikey"))`. -/
def total_metabolite_inchikeys (metabolites_data : List Entry) : Nat :=
  (extract_values metabolites_data "inchikey").card

/-- Size of the lipid key set, `len(extract_values(lipids_data, "INCHI_KEY"))`. -/
def total_lipid_inchikeys (lipids_data : List Entry) : Nat :=
  (extract_values lipids_data "INCHI_KEY").card

/-!
ConvertSdfToJson.py.  A parsed molecule is consumed only through the
capability `HasProp : String -> Bool` and `GetProp : String -> String`;
the pair is embedded as one function to `Option String` (`some v` when
`HasProp` holds with value `v`, `none` otherwise), which is exactly the
value the source stores: `mol.GetProp(k) if mol.HasProp(k) else None`.
-/

/-- A parsed molecule handle, reduced to its property-lookup capability. -/
def Mol : Type := String → Option String

/-- The record built for one molecule inside `sdf_to_json`
(ConvertSdfToJson.py lines 47 to 69): the seven fixed keys in source
order, each mapped to the property value or null. -/
def sdf_record (mol : Mol) : Entry :=
  [("LM_ID", mol "LM_ID"),
   ("NAME", mol "NAME"),
   ("SYSTEMATIC_NAME", mol "SYSTEMATIC_NAME"),
   ("CATEGORY", mol "CATEGORY"),
   ("FORMULA", mol "FORMULA"),
   ("INCHI_KEY", mol "INCHI_KEY"),
   ("SMILES", mol "SMILES")]

/-- The fixed key list of `sdf_record`, in output order. -/
def sdf_keys : List String :=
  ["LM_ID", "NAME", "SYSTEMATIC_NAME", "CATEGORY", "FORMULA", "INCHI_KEY", "SMILES"]

/-- Embedding of the loop of `sdf_to_json`: the supplier yields one
parsed-molecule handle per SDF entry, `none` when RDKit fails to parse
the entry; `for mol in suppl: if mol: data.append(...)` keeps exactly
the parsed ones, in order.  The JSON dump step is the identity on this
data and is omitted. -/
def sdf_to_json (suppl : List (Option Mol)) : List Entry :=
  suppl.filterMap (fun m => Option.map sdf_record m)

/-- A molecule with no properties at all. -/
def mol0 : Mol := fun _ => none

/-- Claim C8: for all KeySets A and B, intersect(A, B) equals intersect(B, A). -/
theorem C8_intersect_comm (a b : Finset (Option String)) :
    intersectKeys a b = intersectKeys b a :=
  Finset.inter_comm a b

/-- Claim C9: the KeySet returned by extract_values never contains the
absence marker, even when the source dataset contains records whose
value for the field is explicitly absent. -/
theorem C9_no_absence_marker (data : List Entry) (key : String) :
    none ∉ extract_values data key := by
  intro h
  simp only [extract_values, List.mem_toFinset, List.mem_filter] at h
  exact Bool.noConfusion h.2

/-- Claim C10: every record the SDF converter emits has exactly the seven
keys LM_ID, NAME, SYSTEMATIC_NAME, CATEGORY, FORMULA, INCHI_KEY, SMILES,
in that order, each mapped to the property value or to null, for every
molecule whatever properties it has. -/
theorem C10_seven_keys (mol : Mol) :
    (sdf_record mol).map Prod.fst = sdf_keys ∧
    (sdf_record mol).map Prod.snd =
      [mol "LM_ID", mol "NAME", mol "SYSTEMATIC_NAME", mol "CATEGORY",
       mol "FORMULA", mol "INCHI_KEY", mol "SMILES"] :=
  ⟨rfl, rfl⟩

/-- Claim C5, counterexample: the extractor output is bit-for-bit
identical for a run that skips one entry and a run that skips two, so no
skip counter is maintained anywhere in the result; the claimed counter
does not exist in the code. -/
theorem C5_counterexample :
    sdf_to_json [some mol0, none] = sdf_to_json [some mol0, none, none] ∧
    (sdf_to_json [some mol0, none]).length = 1 :=
  ⟨rfl, rfl⟩

/-- Claim C5, amended: an entry the parser fails on (a `none` from the
supplier) is skipped without aborting and the record sequence continues
unchanged, but no skip counter is maintained: deleting a failed entry
from the input leaves the output identical. -/
theorem C5_amended_skip_no_counter (s1 s2 : List (Option Mol)) :
    sdf_to_json (s1 ++ none :: s2) = sdf_to_json (s1 ++ s2) := by
  simp [sdf_to_json, List.filterMap_append, List.filterMap_cons]


/-!
ConvertXmlToJson.py.  ElementTree represents a namespace-qualified tag as
one string: an opening brace, the namespace uri, a closing brace, then
the local name (braces appear below as the escapes x7b and x7d).  An
element is a tag, an optional text (null for an empty element) and a
list of children; `find(".//q")` returns the first descendant (self
excluded) whose tag equals the qualified name `q`, in document
(preorder) order.  The element tree is a pair of mutually inductive
types so that the search functions are structurally recursive.
-/

mutual
/-- An ElementTree element: tag, text, children in document order. -/
inductive Elem : Type where
  | mk (tag : String) (text : Option String) (children : ElemList)
/-- A list of sibling elements. -/
inductive ElemList : Type where
  | nil
  | cons (head : Elem) (tail : ElemList)
end

/-- Tag projection. -/
def Elem.tagOf : Elem → String
  | .mk t _ _ => t

/-- Text projection. -/
def Elem.textOf : Elem → Option String
  | .mk _ x _ => x

/-- Build a sibling list from a Lean list. -/
def toElemList : List Elem → ElemList
  | [] => .nil
  | e :: es => .cons e (toElemList es)

mutual
/-- Preorder search: check the node itself, then its subtree. -/
def findInElem (t : String) : Elem → Option Elem
  | .mk tag tx cs => if tag = t then some (.mk tag tx cs) else findInList t cs
/-- Preorder search over siblings: first match in the first subtree that
has one. -/
def findInList (t : String) : ElemList → Option Elem
  | .nil => none
  | .cons e es =>
    match findInElem t e with
    | some r => some r
    | none => findInList t es
end

/-- Embedding of `metabolite_element.find(".//hmdb:key", namespaces=...)`:
the first proper descendant of `e` whose tag is exactly the qualified
name `t`, in document order. -/
def find_desc (e : Elem) (t : String) : Option Elem :=
  match e with
  | .mk _ _ cs => findInList t cs

/-- The fixed field list of `parse_metabolite` (ConvertXmlToJson.py line 36). -/
def key_order : List String :=
  ["accession", "iupac_name", "chemical_formula", "inchikey", "smiles"]

/-- The HMDB namespace qualifier that `find` resolves the prefix to, in
ElementTree tag syntax. -/
def hmdbNS : String := "\x7bhttp://www.hmdb.ca\x7d"

/-- Embedding of `parse_metabolite` (ConvertXmlToJson.py lines 35 to 48):
for each key of `key_order` in order, the record gains the pair
`(key, element.text)` when `find` locates a qualified sub-element, and
gains nothing at all for that key otherwise, because the source assigns
`metabolite_data[key]` only under `if element is not None`. -/
def parse_metabolite (metabolite_element : Elem) : Entry :=
  key_order.filterMap (fun key =>
    match find_desc metabolite_element (hmdbNS ++ key) with
    | some el => some (key, Elem.textOf el)
    | none => none)

/-- Embedding of the Python test `s.endswith(suffix)` as a suffix test on
the character sequences. -/
def str_endswith (s suffix : String) : Bool :=
  suffix.data.isSuffixOf s.data

/-- Embedding of the entry-boundary test of the main loop
(ConvertXmlToJson.py line 63): `elem.tag.endswith("metabolite")`,
applied to the raw tag string, namespace qualifier included. -/
def is_entry_boundary (tag : String) : Bool :=
  str_endswith tag "metabolite"

/-- Modelled from the spec: the local tag name of a possibly qualified
tag, the part after the closing brace of the namespace qualifier.  The
code has no such helper; this definition only states the matching
criterion the spec describes. -/
def localName (tag : String) : String :=
  String.mk ((tag.data.reverse.takeWhile (fun c => c ≠ '\x7d')).reverse)

/-- A metabolite element with no sub-elements at all. -/
def e0 : Elem := Elem.mk (hmdbNS ++ "metabolite") none (toElemList [])

/-- A metabolite element whose inchikey sub-element is qualified with the
HMDB namespace. -/
def eQual : Elem :=
  Elem.mk (hmdbNS ++ "metabolite") none
    (toElemList [Elem.mk (hmdbNS ++ "inchikey") (some "KEY1") (toElemList [])])

/-- A metabolite element whose inchikey sub-element carries no namespace
qualification; its local tag name is still exactly the field name. -/
def ePlain : Elem :=
  Elem.mk (hmdbNS ++ "metabolite") none
    (toElemList [Elem.mk "inchikey" (some "KEY2") (toElemList [])])

/-- Claim C4, counterexample: a metabolite element with no sub-elements
normalizes to the empty record, so the canonical field inchikey is
omitted from the output instead of being mapped to an explicit null. -/
theorem C4_counterexample :
    parse_metabolite e0 = [] ∧
    (parse_metabolite e0).lookup "inchikey" ≠ some none :=
  ⟨rfl, by decide⟩

/-- Claim C4, amended: the SDF converter maps every one of its seven
canonical fields to an explicit value-or-null, absent properties giving
null; the XML converter instead omits a field entirely from the record
whenever the qualified sub-element is not found. -/
theorem C4_amended_absence :
    (∀ (mol : Mol) (k : String), k ∈ sdf_keys →
      (sdf_record mol).lookup k = some (mol k)) ∧
    (∀ (e : Elem) (k : String), find_desc e (hmdbNS ++ k) = none →
      k ∉ (parse_metabolite e).map Prod.fst) := by
  constructor
  · intro mol k hk
    fin_cases hk <;> rfl
  · intro e k h hk
    simp only [parse_metabolite, List.mem_map, List.mem_filterMap] at hk
    obtain ⟨⟨k2, v⟩, ⟨key, hkey, hf⟩, hfst⟩ := hk
    cases hd : find_desc e (hmdbNS ++ key) with
    | none => rw [hd] at hf; exact Option.noConfusion hf
    | some el =>
      rw [hd] at hf
      rw [Option.some.injEq, Prod.mk.injEq] at hf
      obtain ⟨hk2, -⟩ := hf
      subst hk2
      simp only at hfst
      subst hfst
      rw [hd] at h
      exact Option.noConfusion h

/-- Claim C4, witness for the amended theorem at concrete inputs: the
molecule with no properties gets an explicit null for INCHI_KEY, and the
childless metabolite element omits the inchikey field. -/
theorem C4_amended_absence_witness :
    ("INCHI_KEY" ∈ sdf_keys ∧
      (sdf_record mol0).lookup "INCHI_KEY" = some none) ∧
    (find_desc e0 (hmdbNS ++ "inchikey") = none ∧
      "inchikey" ∉ (parse_metabolite e0).map Prod.fst) :=
  ⟨⟨by decide, C4_amended_absence.1 mol0 "INCHI_KEY" (by decide)⟩,
   ⟨rfl, C4_amended_absence.2 e0 "inchikey" rfl⟩⟩

/-- Claim C7, counterexample: a tag whose local name is pseudometabolite
is treated as an entry boundary although its local name differs from the
entry name, and a sub-element whose local name is exactly the field name
is not matched when it lacks the HMDB namespace qualification. -/
theorem C7_counterexample :
    is_entry_boundary (hmdbNS ++ "pseudometabolite") = true ∧
    localName (hmdbNS ++ "pseudometabolite") ≠ "metabolite" ∧
    localName "inchikey" = "inchikey" ∧
    (parse_metabolite ePlain).lookup "inchikey" = none := by
  refine ⟨by decide, by decide, by decide, rfl⟩

/-- Claim C7, amended: the extractor recognizes an entry boundary exactly
when the raw tag string ends with the suffix metabolite, with no
namespace stripping, so local names merely ending in that suffix also
match; and it matches a sub-element only when its tag is exactly the
HMDB-qualified field name: a correctly qualified inchikey sub-element is
found while an unqualified one with the same local name is not. -/
theorem C7_amended_matching :
    (∀ tag : String, is_entry_boundary tag = str_endswith tag "metabolite") ∧
    (parse_metabolite eQual).lookup "inchikey" = some (some "KEY1") ∧
    (parse_metabolite ePlain).lookup "inchikey" = none :=
  ⟨fun _ => rfl, rfl, rfl⟩

/-!
The reconciliation step of the main block of HumanLipidQuantifier.py
(lines 265 to 278).  The percentage is
`round((100 * len(common_inchikeys) / total_metabolite_inchikeys), 2)`:
a bare true division, which in Python raises ZeroDivisionError when the
denominator is zero, and the builtin `round`, which rounds half to even.
The arithmetic is embedded over exact rationals; at every concrete input
used below the intermediate float value is exactly representable (or far
from a rounding boundary), so the float and rational computations agree.
-/

/-- The error the interpreter raises on the percentage line; the script
installs no handler and defines no other error for this step. -/
inductive PyError : Type where
  | zeroDivisionError
deriving DecidableEq

/-- Rounding of a rational to an integer, half to even, the rule of the
Python builtin `round` on one argument. -/
def roundHalfEven (x : ℚ) : ℤ :=
  if x - Int.floor x < 1 / 2 then Int.floor x
  else if 1 / 2 < x - Int.floor x then Int.floor x + 1
  else if Int.floor x % 2 = 0 then Int.floor x else Int.floor x + 1

/-- Embedding of the Python call `round(x, 2)`: round half to even at two
decimal places. -/
def pyRound2 (x : ℚ) : ℚ :=
  (roundHalfEven (x * 100) : ℚ) / 100

/-- Modelled from the spec: rounding to two decimal places with the
round-half-up rule the spec prescribes.  The code contains no such
function; this definition states the rule to compare against. -/
def roundHalfUp2 (x : ℚ) : ℚ :=
  (Int.floor (x * 100 + 1 / 2) : ℚ) / 100

/-- Embedding of the percentage computation of the main block: the size
of the common InChiKey set over the metabolite key-set size, times 100,
rounded to two decimals; a zero denominator raises ZeroDivisionError. -/
def main_percent (lipids_data metabolites_data : List Entry) : Except PyError ℚ :=
  let tm := total_metabolite_inchikeys metabolites_data
  let c := (count_matching_inchikeys lipids_data metabolites_data).1.card
  if tm = 0 then Except.error PyError.zeroDivisionError
  else Except.ok (pyRound2 ((100 * (c : ℚ)) / (tm : ℚ)))

/-- A two-letter key, distinct for distinct small indices. -/
def keyName (i : Nat) : String :=
  String.mk [Char.ofNat (65 + i / 26), Char.ofNat (65 + i % 26)]

/-- A metabolite record with the given InChiKey. -/
def mRec (s : String) : Entry := [("inchikey", some s)]

/-- A lipid record with the given InChiKey. -/
def lRec (s : String) : Entry := [("INCHI_KEY", some s)]

/-- Scenario dataset A: metabolite identity keys X1, X2, X3. -/
def MX : List Entry := [mRec "X1", mRec "X2", mRec "X3"]

/-- Scenario dataset B: lipid identity keys X2, X3, X4. -/
def LX : List Entry := [lRec "X2", lRec "X3", lRec "X4"]

/-- A metabolite dataset whose only record has an explicitly null
InChiKey: it yields zero usable values. -/
def M0 : List Entry := [[("inchikey", (none : Option String))]]

/-- A metabolite dataset with 32 distinct InChiKeys. -/
def M32 : List Entry := (List.range 32).map (fun i => mRec (keyName i))

/-- A lipid dataset with one record whose key is shared with M32. -/
def L1A : List Entry := [lRec (keyName 0)]

/-- Claim C2, counterexample: on a dataset pair whose metabolite side
yields zero usable values, the reconciliation crashes with a raw
ZeroDivisionError; no EmptyDataset error exists anywhere in the code. -/
theorem C2_counterexample :
    main_percent L1A M0 = Except.error PyError.zeroDivisionError := rfl

/-- Claim C2, amended: whenever the metabolite dataset yields zero usable
values for the reconciliation field, the percentage computation fails
with an unhandled raw ZeroDivisionError rather than any explicit,
descriptive error. -/
theorem C2_amended_zero_division (L M : List Entry)
    (h : total_metabolite_inchikeys M = 0) :
    main_percent L M = Except.error PyError.zeroDivisionError := by
  simp [main_percent, h]

/-- Claim C2, witness for the amended theorem: the dataset whose only
record has a null InChiKey yields zero usable values, and the run ends
in ZeroDivisionError. -/
theorem C2_amended_zero_division_witness :
    total_metabolite_inchikeys M0 = 0 ∧
    main_percent LX M0 = Except.error PyError.zeroDivisionError :=
  ⟨by decide, C2_amended_zero_division LX M0 (by decide)⟩

/-- Claim C3, counterexample: with intersection size 1 and metabolite
key-set size 32 the exact ratio is 3.125 percent, a tie at the second
decimal; the code (Python round, half to even) reports 3.12 while the
claimed round-half-up rule gives 3.13. -/
theorem C3_counterexample :
    main_percent L1A M32 = Except.ok (78 / 25) ∧
    roundHalfUp2 (100 * 1 / 32) = 313 / 100 ∧
    (78 / 25 : ℚ) ≠ 313 / 100 := by
  have h1 : total_metabolite_inchikeys M32 = 32 := by decide
  have h2 : (count_matching_inchikeys L1A M32).1.card = 1 := by decide
  refine ⟨?_, ?_, by norm_num⟩
  · simp only [main_percent, h1, h2]
    norm_num [pyRound2, roundHalfEven]
  · norm_num [roundHalfUp2]

/-- Claim C3, amended: for a nonzero metabolite key-set size the reported
percentage is 100 times the intersection size over the metabolite
key-set size rounded to two decimals half to even, and on the scenario
datasets the intersection has size 2 and the percentage is 66.67. -/
theorem C3_amended_percent :
    (∀ L M : List Entry, total_metabolite_inchikeys M ≠ 0 →
      main_percent L M = Except.ok (pyRound2
        ((100 * (((count_matching_inchikeys L M).1.card : ℚ))) /
          (total_metabolite_inchikeys M : ℚ)))) ∧
    main_percent LX MX = Except.ok (6667 / 100) ∧
    (count_matching_inchikeys LX MX).1.card = 2 := by
  have h1 : total_metabolite_inchikeys MX = 3 := by decide
  have h2 : (count_matching_inchikeys LX MX).1.card = 2 := by decide
  refine ⟨fun L M h => by simp [main_percent, h], ?_, h2⟩
  simp only [main_percent, h1, h2]
  norm_num [pyRound2, roundHalfEven]

/-- Claim C3, witness for the amended theorem at the scenario datasets. -/
theorem C3_amended_percent_witness :
    total_metabolite_inchikeys MX ≠ 0 ∧
    main_percent LX MX = Except.ok (pyRound2
      ((100 * (((count_matching_inchikeys LX MX).1.card : ℚ))) /
        (total_metabolite_inchikeys MX : ℚ))) :=
  ⟨by decide, C3_amended_percent.1 LX MX (by decide)⟩

/-!
The circle layout of `plot_inchikey_cycles` (HumanLipidQuantifier.py
lines 148 to 181).  The proportional areas and the radii are computed
from the datasets, but the circle positions are fixed literals: the
source sets `pos_lipid = (0, 2.23718218257649)` with a comment that the
distance formula was solved externally in WolframAlpha, and the header
marks solving it in the script as a todo.  No root search of any kind
appears in the code.  The float arithmetic of the source is embedded
over the reals; every comparison below is settled by margins far beyond
double-precision rounding error.
-/

/-- The pinned metabolite area, `size_metabolite = 10`. -/
noncomputable def size_metabolite : ℝ := 10

/-- Embedding of `size_lipid = size_metabolite * total_lipid_inchikeys /
total_metabolite_inchikeys`. -/
noncomputable def size_lipid (lipids_data metabolites_data : List Entry) : ℝ :=
  size_metabolite * (total_lipid_inchikeys lipids_data : ℝ) /
    (total_metabolite_inchikeys metabolites_data : ℝ)

/-- Embedding of `size_common = size_metabolite * total_common_inchikeys /
total_metabolite_inchikeys`. -/
noncomputable def size_common (lipids_data metabolites_data : List Entry) : ℝ :=
  size_metabolite *
    ((count_matching_inchikeys lipids_data metabolites_data).1.card : ℝ) /
    (total_metabolite_inchikeys metabolites_data : ℝ)

/-- Embedding of `radius_metabolite = math.sqrt(size_metabolite / math.pi)`. -/
noncomputable def radius_metabolite : ℝ :=
  Real.sqrt (size_metabolite / Real.pi)

/-- Embedding of `radius_lipid = math.sqrt(size_lipid / math.pi)`. -/
noncomputable def radius_lipid (lipids_data metabolites_data : List Entry) : ℝ :=
  Real.sqrt (size_lipid lipids_data metabolites_data / Real.pi)

/-- Embedding of `radius_common = math.sqrt(size_common / math.pi)`. -/
noncomputable def radius_common (lipids_data metabolites_data : List Entry) : ℝ :=
  Real.sqrt (size_common lipids_data metabolites_data / Real.pi)

/-- Embedding of `pos_metabolite = (0, 0)`. -/
noncomputable def pos_metabolite : ℝ × ℝ := (0, 0)

/-- Embedding of `pos_lipid = (0, 2.23718218257649)`: a fixed literal,
independent of the datasets. -/
noncomputable def pos_lipid : ℝ × ℝ := (0, 2.23718218257649)

/-- Embedding of `pos_common = (0, 1.67411)`: also a fixed literal. -/
noncomputable def pos_common : ℝ × ℝ := (0, 1.67411)

/-- Euclidean distance between two points of the plot plane. -/
noncomputable def planeDist (p q : ℝ × ℝ) : ℝ :=
  Real.sqrt ((q.1 - p.1) ^ 2 + (q.2 - p.2) ^ 2)

/-- The solved geometry of the spec: two radii, the notional common
radius, and the two circle centers. -/
structure CircleGeometry where
  radius_a : ℝ
  radius_b : ℝ
  radius_common : ℝ
  center_a : ℝ × ℝ
  center_b : ℝ × ℝ

/-- The geometry `plot_inchikey_cycles` lays out for given datasets:
radii from the proportional areas, centers from the fixed literals. -/
noncomputable def solve_layout (lipids_data metabolites_data : List Entry) :
    CircleGeometry :=
  CircleGeometry.mk radius_metabolite
    (radius_lipid lipids_data metabolites_data)
    (radius_common lipids_data metabolites_data)
    pos_metabolite pos_lipid

/-- Modelled from the spec: the standard two-circle lens-area formula
for the overlap of circles with radii `r1`, `r2` at center distance `d`
(zero once the circles are disjoint, the smaller disc once one contains
the other).  The code contains no such formula; the spec appeals to it
to state what the solved distance must reproduce. -/
noncomputable def lens_area (r1 r2 d : ℝ) : ℝ :=
  if r1 + r2 ≤ d then 0
  else if d ≤ |r1 - r2| then Real.pi * min r1 r2 ^ 2
  else
    r1 ^ 2 * Real.arccos ((d ^ 2 + r1 ^ 2 - r2 ^ 2) / (2 * d * r1)) +
      r2 ^ 2 * Real.arccos ((d ^ 2 + r2 ^ 2 - r1 ^ 2) / (2 * d * r2)) -
      Real.sqrt ((-d + r1 + r2) * (d + r1 - r2) * (d - r1 + r2) * (d + r1 + r2)) / 2

/-- The distance between the two circle centers of the layout is the
fixed literal of the source. -/
theorem planeDist_centers_eq :
    planeDist pos_metabolite pos_lipid = 2.23718218257649 := by
  simp only [planeDist, pos_metabolite, pos_lipid]
  rw [show ((0 : ℝ) - 0) ^ 2 + ((2.23718218257649 : ℝ) - 0) ^ 2 =
      (2.23718218257649 : ℝ) ^ 2 by ring]
  exact Real.sqrt_sq (by norm_num)

/-- An upper bound on a radius of the form sqrt of area over pi. -/
theorem sqrt_div_pi_lt (a b : ℝ) (hb : 0 < b)
    (h : a < b ^ 2 * 3.141592) : Real.sqrt (a / Real.pi) < b := by
  rw [Real.sqrt_lt' hb, div_lt_iff₀ Real.pi_pos]
  nlinarith [Real.pi_gt_d6, sq_nonneg b]

/-- A metabolite dataset with 20 distinct InChiKeys. -/
def M20 : List Entry := (List.range 20).map (fun i => mRec (keyName i))

/-- A metabolite dataset with 40 distinct InChiKeys (two-letter names
starting with A or B). -/
def M40 : List Entry := (List.range 40).map (fun i => mRec (keyName i))

/-- A lipid dataset with one key foreign to every metabolite dataset here. -/
def L1Z : List Entry := [lRec "ZZ"]

/-- A lipid dataset with two keys, exactly one of them shared with M40. -/
def L2 : List Entry := [lRec (keyName 0), lRec "ZZ"]

/-- Claim C6, counterexample: with 20 metabolite keys and a single
foreign lipid key the solved geometry has radius sum below 2.19 while
the centers stay the fixed literal 2.23718218257649 apart, so the
invariant on the inter-center distance fails. -/
theorem C6_counterexample :
    ¬ (|(solve_layout L1Z M20).radius_a - (solve_layout L1Z M20).radius_b| ≤
        planeDist (solve_layout L1Z M20).center_a (solve_layout L1Z M20).center_b ∧
      planeDist (solve_layout L1Z M20).center_a (solve_layout L1Z M20).center_b ≤
        (solve_layout L1Z M20).radius_a + (solve_layout L1Z M20).radius_b) := by
  rintro ⟨-, h2⟩
  have h2R : planeDist pos_metabolite pos_lipid ≤
      radius_metabolite + radius_lipid L1Z M20 := h2
  rw [planeDist_centers_eq] at h2R
  have hm : total_metabolite_inchikeys M20 = 20 := by decide
  have hl : total_lipid_inchikeys L1Z = 1 := by decide
  have hsl : size_lipid L1Z M20 = 1 / 2 := by
    simp only [size_lipid, size_metabolite, hl, hm]
    norm_num
  have hra : radius_metabolite < 1.7842 := by
    simp only [radius_metabolite, size_metabolite]
    exact sqrt_div_pi_lt 10 1.7842 (by norm_num) (by norm_num)
  have hrb : radius_lipid L1Z M20 < 0.399 := by
    simp only [radius_lipid]
    rw [hsl]
    exact sqrt_div_pi_lt (1 / 2) 0.399 (by norm_num) (by norm_num)
  linarith

/-- Claim C6, amended: whatever the input key-set cardinalities, the
distance between the two solved centers is the fixed literal
2.23718218257649 taken verbatim from the source, so the claimed
invariant reduces to a numeric condition on the radii that skewed
cardinalities violate. -/
theorem C6_amended_fixed_distance (L M : List Entry) :
    planeDist (solve_layout L M).center_a (solve_layout L M).center_b =
      2.23718218257649 :=
  planeDist_centers_eq

/-- Claim C1, counterexample: the datasets L2 and M40 put the target
overlap strictly between zero and the smaller area (the open interior
case), yet the solved distance lies outside the admissible root-finding
interval (it exceeds the radius sum) and the lens-area formula at the
solved geometry returns an overlap differing from the target area by a
quarter, far beyond the 1e-6 tolerance. -/
theorem C1_counterexample :
    0 < size_common L2 M40 ∧
    size_common L2 M40 < min size_metabolite (size_lipid L2 M40) ∧
    ¬ (planeDist (solve_layout L2 M40).center_a (solve_layout L2 M40).center_b ≤
        (solve_layout L2 M40).radius_a + (solve_layout L2 M40).radius_b) ∧
    |lens_area (solve_layout L2 M40).radius_a (solve_layout L2 M40).radius_b
        (planeDist (solve_layout L2 M40).center_a (solve_layout L2 M40).center_b) -
      size_common L2 M40| > 1e-6 := by
  have hm : total_metabolite_inchikeys M40 = 40 := by decide
  have hl : total_lipid_inchikeys L2 = 2 := by decide
  have hc : (count_matching_inchikeys L2 M40).1.card = 1 := by decide
  have hsl : size_lipid L2 M40 = 1 / 2 := by
    simp only [size_lipid, size_metabolite, hl, hm]
    norm_num
  have hsc : size_common L2 M40 = 1 / 4 := by
    simp only [size_common, size_metabolite, hc, hm]
    norm_num
  have hra : radius_metabolite < 1.7842 := by
    simp only [radius_metabolite, size_metabolite]
    exact sqrt_div_pi_lt 10 1.7842 (by norm_num) (by norm_num)
  have hrb : radius_lipid L2 M40 < 0.399 := by
    simp only [radius_lipid]
    rw [hsl]
    exact sqrt_div_pi_lt (1 / 2) 0.399 (by norm_num) (by norm_num)
  have hd : planeDist (solve_layout L2 M40).center_a (solve_layout L2 M40).center_b =
      2.23718218257649 := planeDist_centers_eq
  have hsum : (solve_layout L2 M40).radius_a + (solve_layout L2 M40).radius_b <
      2.23718218257649 := by
    have hx : radius_metabolite + radius_lipid L2 M40 < 2.23718218257649 := by
      linarith
    exact hx
  refine ⟨by rw [hsc]; norm_num, ?_, ?_, ?_⟩
  · rw [hsc, hsl]
    simp only [size_metabolite, lt_min_iff]
    norm_num
  · rw [hd]
    exact not_le.mpr hsum
  · rw [hd, hsc]
    have hz : lens_area (solve_layout L2 M40).radius_a (solve_layout L2 M40).radius_b
        2.23718218257649 = 0 := by
      simp only [lens_area]
      rw [if_pos (le_of_lt hsum)]
    rw [hz, abs_of_nonpos (by norm_num : (0 : ℝ) - 1 / 4 ≤ 0)]
    norm_num

/-- Claim C1, amended: the code performs no root search at all; the
inter-center distance of the solved geometry is one fixed literal,
identical for every pair of input datasets (it was precomputed
externally for the production data, per the source comments), so the
lens-area reproduction property cannot hold beyond that single
precomputed configuration. -/
theorem C1_amended_distance_constant (La Ma Lb Mb : List Entry) :
    planeDist (solve_layout La Ma).center_a (solve_layout La Ma).center_b =
      planeDist (solve_layout Lb Mb).center_a (solve_layout Lb Mb).center_b ∧
    planeDist (solve_layout La Ma).center_a (solve_layout La Ma).center_b =
      2.23718218257649 :=
  ⟨rfl, planeDist_centers_eq⟩
